import Mathlib

/-!
Verification of the Tea_bot moderation and rate-limiting layer.

The embedding models the SQLite-backed event store (`ForwardsRepository` in
src/database/repository.py), the publish-gate logic of the `/tea` and `/quot`
command handlers, the ban-creation and ban-removal commands
(src/handlers/commands.py), and the calendar-bucketed statistics queries.

Timestamps are modelled as integers: seconds elapsed since the epoch of the
configured civil timezone (all stored and compared instants live in that one
timezone, so local-civil seconds order exactly as the stored values do).
-/

namespace TeaBot

/-! ## Time model -/

/-- Hour-of-day of a local-civil timestamp, as `datetime.hour` and
SQLite `strftime` with the H format both compute it. -/
def hourOf (t : Int) : Int := (t.fdiv 3600).emod 24

/-- Midnight of the calendar day containing `t`. -/
def dayStart (t : Int) : Int := t.fdiv 86400 * 86400

/-- SQLite native weekday (format w): 0 = Sunday .. 6 = Saturday.
Day 0 of the epoch (1970-01-01) is a Thursday, hence the offset 4. -/
def sqliteWeekday (t : Int) : Int := ((t.fdiv 86400) + 4).emod 7

/-- Civil date to day count since 1970-01-01 (proleptic Gregorian calendar,
the arithmetic Python `datetime` subtraction denotes). -/
def daysFromCivil (y m d : Int) : Int :=
  let y2 := if m ≤ 2 then y - 1 else y
  let era := y2.fdiv 400
  let yoe := y2 - era * 400
  let mp := if 2 < m then m - 3 else m + 9
  let doy := (153 * mp + 2).fdiv 5 + d - 1
  let doe := yoe * 365 + yoe.fdiv 4 - yoe.fdiv 100 + doy
  era * 146097 + doe - 719468

/-- Day count since 1970-01-01 back to a civil date (year, month, day). -/
def civilFromDays (z0 : Int) : Int × Int × Int :=
  let z := z0 + 719468
  let era := z.fdiv 146097
  let doe := z - era * 146097
  let yoe := (doe - doe.fdiv 1460 + doe.fdiv 36524 - doe.fdiv 146096).fdiv 365
  let y := yoe + era * 400
  let doy := doe - (365 * yoe + yoe.fdiv 4 - yoe.fdiv 100)
  let mp := (5 * doy + 2).fdiv 153
  let d := doy - (153 * mp + 2).fdiv 5 + 1
  let m := if mp < 10 then mp + 3 else mp - 9
  (if m ≤ 2 then y + 1 else y, m, d)

/-- Month (1..12) of a local-civil timestamp, as SQLite strftime with the
m format computes it. -/
def monthOf (t : Int) : Int := (civilFromDays (t.fdiv 86400)).2.1

/-- Day of month (1..31) of a local-civil timestamp, as SQLite strftime with
the d format computes it. -/
def dayOfMonth (t : Int) : Int := (civilFromDays (t.fdiv 86400)).2.2

/-- Length of a month in days, as `(month_end - month_start).days` computes it
in `get_stats_by_days`: the day-count difference between the first of the next
month and the first of this month. -/
def days_in_month (year month : Int) : Int :=
  (if month = 12 then daysFromCivil (year + 1) 1 1
   else daysFromCivil year (month + 1) 1) - daysFromCivil year month 1

/-! ## Data model (tables `forwards` and `bans`) -/

/-- One row of the `forwards` table. -/
structure Forward where
  id : Nat
  username : String
  message_type : String
  timestamp : Int
deriving DecidableEq, Repr

/-- One row of the `bans` table. -/
structure Ban where
  id : Nat
  user_id : Int
  username : String
  banned_by : Int
  banned_by_username : String
  reason : Option String
  ban_until : Int
  created_at : Int
  is_active : Bool
deriving DecidableEq, Repr

/-- The database: both tables plus the AUTOINCREMENT counters. -/
structure DB where
  forwards : List Forward
  bans : List Ban
  nextForwardId : Nat
  nextBanId : Nat
deriving DecidableEq, Repr

/-- The configuration values the publish gates read
(src/config.py plus the env-driven fields the handlers consult). -/
structure Config where
  DAILY_LIMIT : Nat
  RESET_HOUR : Int
  TIMEOUT_MINUTES : Int
  ADMINS : List Int
deriving DecidableEq, Repr

/-! ## Repository operations (src/database/repository.py) -/

/-- Operation `add_forward`: INSERT one row into `forwards`, returning the new row id. -/
def add_forward (db : DB) (username message_type : String) (dt : Int) :
    DB × Nat :=
  ({ db with
      forwards := db.forwards ++ [⟨db.nextForwardId, username, message_type, dt⟩],
      nextForwardId := db.nextForwardId + 1 },
   db.nextForwardId)

/-- SELECT COUNT(*) FROM forwards WHERE datetime >= instant. -/
def countSince (db : DB) (instant : Int) : Nat :=
  (db.forwards.filter (fun f => decide (instant ≤ f.timestamp))).length

/-- The cycle-start instant as `get_today_count` computes it:
today at RESET_HOUR:00, minus one day when the current hour is earlier
than RESET_HOUR. -/
def cycleStart_count (now resetHour : Int) : Int :=
  let today_reset := dayStart now + resetHour * 3600
  if hourOf now < resetHour then today_reset - 86400 else today_reset

/-- The cycle-start instant as `reset_today` computes it (same code shape,
embedded separately from its own code site). -/
def cycleStart_reset (now resetHour : Int) : Int :=
  let today_reset := dayStart now + resetHour * 3600
  if hourOf now < resetHour then today_reset - 86400 else today_reset

/-- Operation `get_today_count`: count of forwards since the current cycle start. -/
def get_today_count (db : DB) (cfg : Config) (now : Int) : Nat :=
  countSince db (cycleStart_count now cfg.RESET_HOUR)

/-- Operation `reset_today`: DELETE FROM forwards WHERE datetime >= cycle start;
returns the surviving database and the number of rows deleted. -/
def reset_today (db : DB) (cfg : Config) (now : Int) : DB × Nat :=
  let today_reset := cycleStart_reset now cfg.RESET_HOUR
  (( { db with
        forwards := db.forwards.filter (fun f => decide (f.timestamp < today_reset)) }),
   (db.forwards.filter (fun f => decide (today_reset ≤ f.timestamp))).length)

/-- Accumulator step realising ORDER BY datetime DESC LIMIT 1: keep the
largest timestamp seen so far. -/
def lastTimeStep (acc : Option Int) (f : Forward) : Option Int :=
  match acc with
  | none => some f.timestamp
  | some t => if t < f.timestamp then some f.timestamp else some t

/-- Operation `get_last_forward_time`: most recent forward timestamp, globally or
scoped to one username. -/
def get_last_forward_time (db : DB) (username : Option String) : Option Int :=
  let rows : List Forward := match username with
    | some u => db.forwards.filter (fun f => f.username == u)
    | none => db.forwards
  rows.foldl lastTimeStep none

/-- Operation `add_ban`: INSERT one row into `bans` with
`ban_until = now + hours * 3600`, returning the new row id. -/
def add_ban (db : DB) (user_id : Int) (username : String) (banned_by : Int)
    (banned_by_username : String) (hours : Int) (reason : Option String)
    (now : Int) : DB × Nat :=
  ({ db with
      bans := db.bans ++
        [⟨db.nextBanId, user_id, username, banned_by, banned_by_username,
          reason, now + hours * 3600, now, true⟩],
      nextBanId := db.nextBanId + 1 },
   db.nextBanId)

/-- The WHERE clause of `is_user_banned`:
`user_id = ? AND is_active = 1 AND ban_until > now`. -/
def banCond (uid now : Int) (b : Ban) : Bool :=
  decide (b.user_id = uid) && b.is_active && decide (now < b.ban_until)

/-- Accumulator step realising ORDER BY created_at DESC LIMIT 1. -/
def pickStep (acc : Option Ban) (b : Ban) : Option Ban :=
  match acc with
  | none => some b
  | some best => if best.created_at < b.created_at then some b else some best

/-- The row with the largest `created_at` among a list of candidates. -/
def pickLatest (l : List Ban) : Option Ban := l.foldl pickStep none

/-- Operation `is_user_banned`: the most recently created row satisfying
`user_id = ? AND is_active = 1 AND ban_until > now`, if any. -/
def is_user_banned (db : DB) (uid : Int) (now : Int) : Option Ban :=
  pickLatest (db.bans.filter (banCond uid now))

/-- Operation `remove_ban`: UPDATE bans SET is_active = 0
WHERE user_id = ? AND is_active = 1; returns the rowcount. -/
def remove_ban (db : DB) (uid : Int) : DB × Nat :=
  ({ db with
      bans := db.bans.map (fun b =>
        if b.user_id = uid ∧ b.is_active = true
        then { b with is_active := false } else b) },
   (db.bans.filter (fun b => decide (b.user_id = uid) && b.is_active)).length)

/-! ## Statistics queries (repository + chart zero-fill) -/

/-- Query `get_stats_by_hours`: for each hour 0..23, the number of forwards in
`[start, end)` whose hour-of-day equals it.  The SQL GROUP BY plus the
Python zero-fill loop denote exactly this dense 24-bucket sequence. -/
def get_stats_by_hours (db : DB) (start_date end_date : Int) :
    List (Int × Nat) :=
  (List.range 24).map (fun h =>
    (Int.ofNat h,
     (db.forwards.filter (fun f =>
        decide (start_date ≤ f.timestamp) && decide (f.timestamp < end_date) &&
        decide (hourOf f.timestamp = Int.ofNat h))).length))

/-- The CASE remap of `get_stats_by_weekdays`: SQLite native weekday
(0 = Sunday) to Monday-first numbering (0 = Monday). -/
def remapWeekday (w : Int) : Int := if w = 0 then 6 else w - 1

/-- Count of forwards in `[start, end)` landing in Monday-first weekday
bucket `d`. -/
def weekdayBucketCount (db : DB) (start_date end_date : Int) (d : Int) : Nat :=
  (db.forwards.filter (fun f =>
     decide (start_date ≤ f.timestamp) && decide (f.timestamp < end_date) &&
     decide (remapWeekday (sqliteWeekday f.timestamp) = d))).length

/-- Query `get_stats_by_weekdays`: dense 7-bucket sequence, 0 = Monday. -/
def get_stats_by_weekdays (db : DB) (start_date end_date : Int) :
    List (Int × Nat) :=
  (List.range 7).map (fun d =>
    (Int.ofNat d, weekdayBucketCount db start_date end_date (Int.ofNat d)))

/-- Query `get_stats_by_days`: dense day-of-month sequence 1..days_in_month for the
given month, each day with its forward count inside the month window. -/
def get_stats_by_days (db : DB) (month_number year : Int) :
    List (Int × Nat) :=
  let month_start := daysFromCivil year month_number 1 * 86400
  let month_end := (if month_number = 12 then daysFromCivil (year + 1) 1 1
                    else daysFromCivil year (month_number + 1) 1) * 86400
  (List.range (days_in_month year month_number).toNat).map (fun i =>
    (Int.ofNat i + 1,
     (db.forwards.filter (fun f =>
        decide (month_start ≤ f.timestamp) && decide (f.timestamp < month_end) &&
        decide (dayOfMonth f.timestamp = Int.ofNat i + 1))).length))

/-- The `monthly_stats` field of `get_stats_by_year`: GROUP BY month over the
year window — sparse, only months with at least one row, ascending. -/
def get_stats_by_year_monthly (db : DB) (year : Int) : List (Int × Nat) :=
  let year_start := daysFromCivil year 1 1 * 86400
  let year_end := daysFromCivil (year + 1) 1 1 * 86400
  ((List.range 12).map (fun i =>
      (Int.ofNat i + 1,
       (db.forwards.filter (fun f =>
          decide (year_start ≤ f.timestamp) && decide (f.timestamp < year_end) &&
          decide (monthOf f.timestamp = Int.ofNat i + 1))).length))).filter
    (fun p => decide (0 < p.2))

/-- The zero-fill step of `create_months_chart`:
`[month_counts.get(m, 0) for m in range(1, 13)]`. -/
def create_months_chart_counts (stats : List (Int × Nat)) : List Nat :=
  (List.range 12).map (fun i =>
    ((stats.reverse.find? (fun p => p.1 == Int.ofNat i + 1)).map Prod.snd).getD 0)

/-! ## Policy engine (the publish gates of cmd_tea and cmd_quot) -/

/-- Outcome of the gate cascade of a publish attempt. -/
inductive Decision where
  | denyBanned (remainingSeconds : Int) (reason : Option String)
      (bannedByUsername : String)
  | denyTooSoon (remainingSeconds : Int)
  | denyQuota
  | allow
deriving DecidableEq, Repr

/-- The gate cascade of `cmd_tea`: ban check, then global cooldown check,
then daily-quota check; the first failing check returns immediately. -/
def cmd_tea_decision (db : DB) (cfg : Config) (userId : Int) (now : Int) :
    Decision :=
  match is_user_banned db userId now with
  | some b => Decision.denyBanned (b.ban_until - now) b.reason b.banned_by_username
  | none =>
    let quotaStep : Decision :=
      if cfg.DAILY_LIMIT ≤ get_today_count db cfg now
      then Decision.denyQuota else Decision.allow
    match get_last_forward_time db none with
    | some t =>
        if now - t < cfg.TIMEOUT_MINUTES * 60 then
          Decision.denyTooSoon (cfg.TIMEOUT_MINUTES * 60 - (now - t))
        else quotaStep
    | none => quotaStep

/-- The gate cascade of `cmd_quot`: same three checks in the same order
(the handler duplicates the code of cmd_tea). -/
def cmd_quot_decision (db : DB) (cfg : Config) (userId : Int) (now : Int) :
    Decision :=
  match is_user_banned db userId now with
  | some b => Decision.denyBanned (b.ban_until - now) b.reason b.banned_by_username
  | none =>
    let quotaStep : Decision :=
      if cfg.DAILY_LIMIT ≤ get_today_count db cfg now
      then Decision.denyQuota else Decision.allow
    match get_last_forward_time db none with
    | some t =>
        if now - t < cfg.TIMEOUT_MINUTES * 60 then
          Decision.denyTooSoon (cfg.TIMEOUT_MINUTES * 60 - (now - t))
        else quotaStep
    | none => quotaStep

/-- The cooldown gate passes: no forward recorded yet, or the timeout has
elapsed since the globally latest one. -/
def cooldownOk (db : DB) (cfg : Config) (now : Int) : Bool :=
  match get_last_forward_time db none with
  | none => true
  | some t => decide (cfg.TIMEOUT_MINUTES * 60 ≤ now - t)

/-- User-visible outcome of a full publish attempt. -/
inductive SendOutcome where
  | sent
  | sendFailed
  | denied (d : Decision)
deriving DecidableEq, Repr

/-- The full `/tea` attempt: run the gate cascade; on ALLOW perform the
external publish, and only when that publish succeeds call `add_forward`.
A failed external publish leaves the database untouched (the except branch
runs instead of the recording step). -/
def cmd_tea_attempt (db : DB) (cfg : Config) (userId : Int)
    (username message_type : String) (now : Int) (publishOk : Bool) :
    DB × SendOutcome :=
  match cmd_tea_decision db cfg userId now with
  | Decision.allow =>
      if publishOk then ((add_forward db username message_type now).1, SendOutcome.sent)
      else (db, SendOutcome.sendFailed)
  | d => (db, SendOutcome.denied d)

/-- Outcome of the `/ban` command past argument extraction. -/
inductive BanCmdResult where
  | invalidHours
  | adminRejected
  | banCreated (banId : Nat)
deriving DecidableEq, Repr

/-- The ban-creation path of `cmd_ban`: reject non-positive hours, then
reject when the target is an administrator, otherwise insert the ban row. -/
def cmd_ban_model (db : DB) (cfg : Config) (targetUserId : Int)
    (targetName : String) (issuerId : Int) (issuerName : String)
    (hours : Int) (reason : Option String) (now : Int) : DB × BanCmdResult :=
  if hours ≤ 0 then (db, BanCmdResult.invalidHours)
  else if targetUserId ∈ cfg.ADMINS then (db, BanCmdResult.adminRejected)
  else
    let r := add_ban db targetUserId targetName issuerId issuerName hours reason now
    (r.1, BanCmdResult.banCreated r.2)

/-! ## Concrete fixtures used by witnesses and concrete conjuncts -/

/-- Default test configuration: limit 5, reset hour 4, timeout 30 minutes,
administrator set containing ids 1 and 2. -/
def cfgW : Config := ⟨5, 4, 30, [1, 2]⟩

/-- An empty database. -/
def dbEmpty : DB := ⟨[], [], 1, 1⟩

/-- A forward recorded at 03:59 local time on epoch day 0. -/
def fw0359 : Forward := ⟨1, "@alice", "text", 3 * 3600 + 59 * 60⟩

/-- A forward recorded at 04:01 local time on epoch day 0. -/
def fw0401 : Forward := ⟨2, "@bob", "photo", 4 * 3600 + 60⟩

/-- Database holding the 03:59 and 04:01 forwards. -/
def dbCycle : DB := ⟨[fw0359, fw0401], [], 3, 1⟩

/-- A ban row for user 5: active, expiring at t = 7200, created at t = 0. -/
def banW : Ban := ⟨1, 5, "@eve", 1, "@admin", some "spam", 7200, 0, true⟩

/-- Database where user 5 is banned (ban valid until t = 7200). -/
def dbBanned : DB := ⟨[], [banW], 1, 2⟩

/-- A ban row for user 5 that is still flagged active but already expired
at any instant past t = 7200. -/
def banExpired : Ban := ⟨1, 5, "@eve", 1, "@admin", none, 7200, 0, true⟩

/-- Database holding only the expired-but-still-active ban row. -/
def dbExpired : DB := ⟨[], [banExpired], 1, 2⟩

/-- A forward on 1970-01-07, a Wednesday, at 10:00 local time. -/
def fwWed : Forward := ⟨1, "@carol", "text", 6 * 86400 + 10 * 3600⟩

/-- Database holding only the Wednesday forward. -/
def dbWed : DB := ⟨[fwWed], [], 2, 1⟩

/-! ## Helper lemmas -/

theorem foldl_pickStep_spec (l : List Ban) (x : Ban) :
    ∃ b, l.foldl pickStep (some x) = some b ∧ (b = x ∨ b ∈ l) ∧
      x.created_at ≤ b.created_at ∧ ∀ c ∈ l, c.created_at ≤ b.created_at := by
  induction l generalizing x with
  | nil => exact ⟨x, rfl, Or.inl rfl, le_refl _, by simp⟩
  | cons a t ih =>
    simp only [List.foldl_cons]
    by_cases h : x.created_at < a.created_at
    · have hstep : pickStep (some x) a = some a := by simp [pickStep, h]
      rw [hstep]
      obtain ⟨b, hb, hmem, hle, hall⟩ := ih a
      refine ⟨b, hb, ?_, le_of_lt (lt_of_lt_of_le h hle), ?_⟩
      · rcases hmem with e | m
        · exact Or.inr (e ▸ List.mem_cons_self a t)
        · exact Or.inr (List.mem_cons_of_mem a m)
      · intro c hc
        rcases List.mem_cons.mp hc with e | m
        · exact e ▸ hle
        · exact hall c m
    · have hstep : pickStep (some x) a = some x := by simp [pickStep, h]
      rw [hstep]
      obtain ⟨b, hb, hmem, hle, hall⟩ := ih x
      refine ⟨b, hb, ?_, hle, ?_⟩
      · rcases hmem with e | m
        · exact Or.inl e
        · exact Or.inr (List.mem_cons_of_mem a m)
      · intro c hc
        rcases List.mem_cons.mp hc with e | m
        · exact e ▸ le_trans (le_of_not_lt h) hle
        · exact hall c m

theorem pickLatest_none_iff (l : List Ban) : pickLatest l = none ↔ l = [] := by
  cases l with
  | nil => simp [pickLatest]
  | cons a t =>
    simp only [pickLatest, List.foldl_cons]
    rw [show pickStep none a = some a from rfl]
    obtain ⟨b, hb, -, -, -⟩ := foldl_pickStep_spec t a
    simp [hb]

theorem pickLatest_some (l : List Ban) (b : Ban) (h : pickLatest l = some b) :
    b ∈ l ∧ ∀ c ∈ l, c.created_at ≤ b.created_at := by
  cases l with
  | nil => simp [pickLatest] at h
  | cons a t =>
    simp only [pickLatest, List.foldl_cons] at h
    rw [show pickStep none a = some a from rfl] at h
    obtain ⟨b2, hb2, hmem, hle, hall⟩ := foldl_pickStep_spec t a
    rw [hb2] at h
    injection h with h
    subst h
    constructor
    · rcases hmem with e | m
      · exact e ▸ List.mem_cons_self a t
      · exact List.mem_cons_of_mem a m
    · intro c hc
      rcases List.mem_cons.mp hc with e | m
      · exact e ▸ hle
      · exact hall c m

theorem banCond_iff (uid now : Int) (b : Ban) :
    banCond uid now b = true ↔
      b.user_id = uid ∧ b.is_active = true ∧ now < b.ban_until := by
  simp [banCond, Bool.and_eq_true, decide_eq_true_iff, and_assoc]

/-! ## Claim theorems -/

/-- Claim C6: is_user_banned returns a ban iff a row for the subject has
is_active true and ban_until strictly after now; it returns none once the
ban has expired even when the active flag is still set, and among several
qualifying rows it selects one with maximal created_at. -/
theorem activeBan_characterization (db : DB) (uid : Int) (now : Int) :
    (is_user_banned db uid now = none ↔
      ∀ b ∈ db.bans, ¬(b.user_id = uid ∧ b.is_active = true ∧ now < b.ban_until))
    ∧ ∀ b, is_user_banned db uid now = some b →
        b ∈ db.bans ∧ b.user_id = uid ∧ b.is_active = true ∧ now < b.ban_until ∧
        ∀ c ∈ db.bans, c.user_id = uid → c.is_active = true → now < c.ban_until →
          c.created_at ≤ b.created_at := by
  constructor
  · rw [is_user_banned, pickLatest_none_iff, List.filter_eq_nil_iff]
    constructor
    · intro h b hb hcond
      exact h b hb ((banCond_iff uid now b).mpr hcond)
    · intro h b hb hcond
      exact h b hb ((banCond_iff uid now b).mp hcond)
  · intro b hsome
    obtain ⟨hmem, hmax⟩ := pickLatest_some _ b hsome
    have hmem2 := List.mem_filter.mp hmem
    obtain ⟨h1, h2, h3⟩ := (banCond_iff uid now b).mp hmem2.2
    refine ⟨hmem2.1, h1, h2, h3, ?_⟩
    intro c hc hc1 hc2 hc3
    exact hmax c (List.mem_filter.mpr ⟨hc, (banCond_iff uid now c).mpr ⟨hc1, hc2, hc3⟩⟩)

/-- Witness for C6: a row that is still flagged active but whose ban_until
has passed yields no active ban. -/
theorem activeBan_characterization_witness :
    is_user_banned dbExpired 5 9999 = none :=
  (activeBan_characterization dbExpired 5 9999).1.mpr (by decide)

/-- Claim C10: remove_ban deactivates every active row of the subject,
including already-expired ones, returns the number of rows updated, leaves
rows of other subjects in place, and afterwards is_user_banned finds
nothing for the subject. -/
theorem remove_ban_spec (db : DB) (uid : Int) :
    (remove_ban db uid).2 =
      (db.bans.filter (fun b => decide (b.user_id = uid ∧ b.is_active = true))).length
    ∧ (∀ b ∈ (remove_ban db uid).1.bans, b.user_id = uid → b.is_active = false)
    ∧ (∀ b ∈ db.bans, b.user_id ≠ uid → b ∈ (remove_ban db uid).1.bans)
    ∧ (∀ now, is_user_banned (remove_ban db uid).1 uid now = none) := by
  have hinactive : ∀ b ∈ (remove_ban db uid).1.bans, b.user_id = uid →
      b.is_active = false := by
    intro b hb huid
    obtain ⟨a, ha, rfl⟩ := List.mem_map.mp hb
    by_cases h : a.user_id = uid ∧ a.is_active = true
    · simp [h]
    · simp only [if_neg h] at huid ⊢
      rcases Bool.eq_false_or_eq_true a.is_active with ht | hf
      · exact absurd ⟨huid, ht⟩ h
      · exact hf
  refine ⟨?_, hinactive, ?_, ?_⟩
  · have : ∀ b ∈ db.bans,
        (decide (b.user_id = uid) && b.is_active) =
        decide (b.user_id = uid ∧ b.is_active = true) := by
      intro b _
      by_cases h : b.user_id = uid <;> cases hb : b.is_active <;> simp [h, hb]
    simp only [remove_ban]
    rw [List.filter_congr this]
  · intro b hb hne
    refine List.mem_map.mpr ⟨b, hb, ?_⟩
    rw [if_neg (fun hc => hne hc.1)]
  · intro now
    rw [is_user_banned, pickLatest_none_iff, List.filter_eq_nil_iff]
    intro b hb hcond
    obtain ⟨h1, h2, _⟩ := (banCond_iff uid now b).mp hcond
    rw [hinactive b hb h1] at h2
    exact Bool.false_ne_true h2

/-- Witness for C10: removing the expired-but-active ban of user 5 updates
one row, and the user has no active ban afterwards. -/
theorem remove_ban_spec_witness :
    (remove_ban dbExpired 5).2 =
      (dbExpired.bans.filter
        (fun b => decide (b.user_id = 5 ∧ b.is_active = true))).length
    ∧ is_user_banned (remove_ban dbExpired 5).1 5 0 = none :=
  ⟨(remove_ban_spec dbExpired 5).1, (remove_ban_spec dbExpired 5).2.2.2 0⟩

/-- Claim C3: the quota check and reset_today compute the identical cycle
start for every instant and reset hour; with reset hour 4, an event at
03:59 is outside the cycle observed at 05:00 the same day while one at
04:01 is inside it, for countSince (via get_today_count) and deleteSince
(via reset_today) alike. -/
theorem cycleStart_agreement :
    (∀ now resetHour : Int,
       cycleStart_count now resetHour = cycleStart_reset now resetHour)
    ∧ get_today_count dbCycle cfgW (5 * 3600) = 1
    ∧ (reset_today dbCycle cfgW (5 * 3600)).2 = 1
    ∧ (reset_today dbCycle cfgW (5 * 3600)).1.forwards = [fw0359] := by
  refine ⟨fun _ _ => rfl, by decide, by decide, by decide⟩

/-- Claim C5: the hour histogram always has exactly 24 buckets labelled
0..23, the month histogram of a year (GROUP BY month zero-filled by the
chart step) always has 12 entries, and the day histogram of February 2024
has exactly 29 entries. -/
theorem histogram_density (db : DB) (start_date end_date year : Int) :
    (get_stats_by_hours db start_date end_date).length = 24
    ∧ (get_stats_by_hours db start_date end_date).map Prod.fst =
        (List.range 24).map Int.ofNat
    ∧ (create_months_chart_counts (get_stats_by_year_monthly db year)).length = 12
    ∧ (get_stats_by_days db 2 2024).length = 29 := by
  refine ⟨by simp only [get_stats_by_hours, List.length_map, List.length_range], rfl,
    by simp only [create_months_chart_counts, List.length_map, List.length_range], ?_⟩
  simp only [get_stats_by_days, List.length_map, List.length_range]
  decide

/-- Claim C1: the publish gates of /tea and /quot agree and evaluate ban,
then cooldown, then quota, first failing check winning: a present ban always
yields the BANNED denial whatever the quota state; a TOO_SOON or
QUOTA_EXCEEDED or ALLOW outcome certifies that every earlier gate passed. -/
theorem gate_order (db : DB) (cfg : Config) (userId now : Int) :
    cmd_quot_decision db cfg userId now = cmd_tea_decision db cfg userId now
    ∧ (∀ b, is_user_banned db userId now = some b →
        cmd_tea_decision db cfg userId now =
          Decision.denyBanned (b.ban_until - now) b.reason b.banned_by_username)
    ∧ (∀ r, cmd_tea_decision db cfg userId now = Decision.denyTooSoon r →
        is_user_banned db userId now = none)
    ∧ (cmd_tea_decision db cfg userId now = Decision.denyQuota →
        is_user_banned db userId now = none ∧ cooldownOk db cfg now = true ∧
        cfg.DAILY_LIMIT ≤ get_today_count db cfg now)
    ∧ (cmd_tea_decision db cfg userId now = Decision.allow →
        is_user_banned db userId now = none ∧ cooldownOk db cfg now = true ∧
        get_today_count db cfg now < cfg.DAILY_LIMIT) := by
  refine ⟨rfl, ?_, ?_, ?_, ?_⟩
  · intro b hb
    simp [cmd_tea_decision, hb]
  · intro r hr
    cases hban : is_user_banned db userId now with
    | none => rfl
    | some b => simp [cmd_tea_decision, hban] at hr
  · intro hq
    cases hban : is_user_banned db userId now with
    | some b => simp [cmd_tea_decision, hban] at hq
    | none =>
      refine ⟨rfl, ?_⟩
      simp only [cmd_tea_decision, hban] at hq
      cases hlast : get_last_forward_time db none with
      | none =>
        rw [hlast] at hq
        refine ⟨by simp [cooldownOk, hlast], ?_⟩
        by_cases hc : cfg.DAILY_LIMIT ≤ get_today_count db cfg now
        · exact hc
        · simp [hc] at hq
      | some t =>
        rw [hlast] at hq
        simp only [cooldownOk, hlast]
        by_cases hcool : now - t < cfg.TIMEOUT_MINUTES * 60
        · simp [hcool] at hq
        · refine ⟨by simp [decide_eq_true_iff]; omega, ?_⟩
          by_cases hc : cfg.DAILY_LIMIT ≤ get_today_count db cfg now
          · exact hc
          · simp [hcool, hc] at hq
  · intro ha
    cases hban : is_user_banned db userId now with
    | some b => simp [cmd_tea_decision, hban] at ha
    | none =>
      refine ⟨rfl, ?_⟩
      simp only [cmd_tea_decision, hban] at ha
      cases hlast : get_last_forward_time db none with
      | none =>
        rw [hlast] at ha
        refine ⟨by simp [cooldownOk, hlast], ?_⟩
        by_cases hc : cfg.DAILY_LIMIT ≤ get_today_count db cfg now
        · simp [hc] at ha
        · omega
      | some t =>
        rw [hlast] at ha
        simp only [cooldownOk, hlast]
        by_cases hcool : now - t < cfg.TIMEOUT_MINUTES * 60
        · simp [hcool] at ha
        · refine ⟨by simp [decide_eq_true_iff]; omega, ?_⟩
          by_cases hc : cfg.DAILY_LIMIT ≤ get_today_count db cfg now
          · simp [hcool, hc] at ha
          · omega

/-- Witness for C1: user 5 is banned while the daily quota is untouched,
and the decision is the BANNED denial, not QUOTA_EXCEEDED. -/
theorem gate_order_witness :
    (is_user_banned dbBanned 5 3600 = some banW ∧
      get_today_count dbBanned cfgW 3600 < cfgW.DAILY_LIMIT) ∧
    cmd_tea_decision dbBanned cfgW 5 3600 =
      Decision.denyBanned (banW.ban_until - 3600) banW.reason
        banW.banned_by_username :=
  ⟨⟨by decide, by decide⟩,
   (gate_order dbBanned cfgW 5 3600).2.1 banW (by decide)⟩

/-- Claim C2: when the user is not banned and the cooldown has elapsed, the
attempt is allowed exactly when the cycle count is below DAILY_LIMIT and is
denied with QUOTA_EXCEEDED exactly when it has reached it; recording a
forward inside the current cycle increases the cycle count by one, so after
the N-th in-cycle record the next quota check denies while the N-th attempt
itself was still allowed. -/
theorem quota_boundary (db : DB) (cfg : Config) (userId now : Int)
    (un mt : String) (t : Int)
    (hban : is_user_banned db userId now = none)
    (hcool : cooldownOk db cfg now = true)
    (ht : cycleStart_count now cfg.RESET_HOUR ≤ t) :
    cmd_tea_decision db cfg userId now =
      (if cfg.DAILY_LIMIT ≤ get_today_count db cfg now
       then Decision.denyQuota else Decision.allow)
    ∧ get_today_count (add_forward db un mt t).1 cfg now =
        get_today_count db cfg now + 1 := by
  constructor
  · simp only [cmd_tea_decision, hban]
    cases hlast : get_last_forward_time db none with
    | none => rfl
    | some s =>
      simp only [cooldownOk, hlast, decide_eq_true_iff] at hcool
      have hnotlt : ¬(now - s < cfg.TIMEOUT_MINUTES * 60) := by omega
      simp [hnotlt]
  · simp [get_today_count, countSince, add_forward, List.filter_append, ht]

/-- Witness for C2: in an empty database at 05:00 with limit 5 the attempt
is allowed, and recording at 05:00 raises the cycle count from 0 to 1. -/
theorem quota_boundary_witness :
    (is_user_banned dbEmpty 7 18000 = none ∧
     cooldownOk dbEmpty cfgW 18000 = true ∧
     cycleStart_count 18000 cfgW.RESET_HOUR ≤ 18000) ∧
    (cmd_tea_decision dbEmpty cfgW 7 18000 =
      (if cfgW.DAILY_LIMIT ≤ get_today_count dbEmpty cfgW 18000
       then Decision.denyQuota else Decision.allow)
     ∧ get_today_count (add_forward dbEmpty "@alice" "text" 18000).1 cfgW 18000 =
         get_today_count dbEmpty cfgW 18000 + 1) :=
  ⟨⟨rfl, rfl, by decide⟩,
   quota_boundary dbEmpty cfgW 7 18000 "@alice" "text" 18000 rfl rfl (by decide)⟩

/-- Claim C4: for a non-banned user the outcome is fully determined by the
globally latest forward time — identical for every other non-banned user —
denying with TOO_SOON and the remaining duration while the cooldown has not
elapsed, and falling through to the quota gate once it has elapsed or when
no forward exists; a passing cooldown never produces TOO_SOON. -/
theorem cooldown_global (db : DB) (cfg : Config) (userId userId2 now : Int)
    (hban : is_user_banned db userId now = none)
    (hban2 : is_user_banned db userId2 now = none) :
    cmd_tea_decision db cfg userId now =
      (match get_last_forward_time db none with
       | some t =>
           if now - t < cfg.TIMEOUT_MINUTES * 60 then
             Decision.denyTooSoon (cfg.TIMEOUT_MINUTES * 60 - (now - t))
           else if cfg.DAILY_LIMIT ≤ get_today_count db cfg now
                then Decision.denyQuota else Decision.allow
       | none => if cfg.DAILY_LIMIT ≤ get_today_count db cfg now
                 then Decision.denyQuota else Decision.allow)
    ∧ cmd_tea_decision db cfg userId2 now = cmd_tea_decision db cfg userId now
    ∧ (cooldownOk db cfg now = true →
        ∀ r, cmd_tea_decision db cfg userId now ≠ Decision.denyTooSoon r) := by
  refine ⟨?_, ?_, ?_⟩
  · simp only [cmd_tea_decision, hban]
  · simp only [cmd_tea_decision, hban, hban2]
  · intro hcool r hr
    simp only [cmd_tea_decision, hban] at hr
    cases hlast : get_last_forward_time db none with
    | none =>
      rw [hlast] at hr
      by_cases hc : cfg.DAILY_LIMIT ≤ get_today_count db cfg now <;>
        simp [hc] at hr
    | some t =>
      rw [hlast] at hr
      simp only [cooldownOk, hlast, decide_eq_true_iff] at hcool
      have hnotlt : ¬(now - t < cfg.TIMEOUT_MINUTES * 60) := by omega
      by_cases hc : cfg.DAILY_LIMIT ≤ get_today_count db cfg now <;>
        simp [hnotlt, hc] at hr

/-- Witness for C4: with no forward recorded, two different non-banned users
both fall through to the quota gate with the same outcome. -/
theorem cooldown_global_witness :
    (is_user_banned dbEmpty 7 18000 = none ∧
     is_user_banned dbEmpty 8 18000 = none) ∧
    cmd_tea_decision dbEmpty cfgW 8 18000 = cmd_tea_decision dbEmpty cfgW 7 18000 :=
  ⟨⟨rfl, rfl⟩, (cooldown_global dbEmpty cfgW 7 8 18000 rfl rfl).2.1⟩

/-- Claim C7: a failed external publish records nothing — the database and
hence the quota count and the latest-event time are exactly as if the
attempt never happened — while any attempt adds at most one forward row. -/
theorem publish_failure_void (db : DB) (cfg : Config) (userId : Int)
    (un mt : String) (now : Int) (publishOk : Bool) :
    (cmd_tea_attempt db cfg userId un mt now false).1 = db
    ∧ get_today_count (cmd_tea_attempt db cfg userId un mt now false).1 cfg now =
        get_today_count db cfg now
    ∧ get_last_forward_time (cmd_tea_attempt db cfg userId un mt now false).1 none =
        get_last_forward_time db none
    ∧ (cmd_tea_attempt db cfg userId un mt now publishOk).1.forwards.length ≤
        db.forwards.length + 1 := by
  have h1 : (cmd_tea_attempt db cfg userId un mt now false).1 = db := by
    unfold cmd_tea_attempt
    cases cmd_tea_decision db cfg userId now <;> rfl
  refine ⟨h1, by rw [h1], by rw [h1], ?_⟩
  unfold cmd_tea_attempt
  cases cmd_tea_decision db cfg userId now <;> cases publishOk <;>
    simp [add_forward]

/-- Claim C8: a ban request whose target is an administrator is rejected
and the whole database — in particular the ban registry — is unchanged. -/
theorem admin_immunity (db : DB) (cfg : Config) (targetUserId : Int)
    (targetName : String) (issuerId : Int) (issuerName : String)
    (hours : Int) (reason : Option String) (now : Int)
    (hadm : targetUserId ∈ cfg.ADMINS) :
    (cmd_ban_model db cfg targetUserId targetName issuerId issuerName
        hours reason now).1 = db
    ∧ ∀ bid, (cmd_ban_model db cfg targetUserId targetName issuerId issuerName
        hours reason now).2 ≠ BanCmdResult.banCreated bid := by
  unfold cmd_ban_model
  by_cases h : hours ≤ 0
  · simp [h]
  · simp [h, hadm]

/-- Witness for C8: banning administrator 1 changes nothing and creates no
ban row. -/
theorem admin_immunity_witness :
    ((1 : Int) ∈ cfgW.ADMINS) ∧
    (cmd_ban_model dbEmpty cfgW 1 "@root" 2 "@issuer" 24 none 0).1 = dbEmpty ∧
    ∀ bid, (cmd_ban_model dbEmpty cfgW 1 "@root" 2 "@issuer" 24 none 0).2 ≠
      BanCmdResult.banCreated bid :=
  ⟨by decide,
   (admin_immunity dbEmpty cfgW 1 "@root" 2 "@issuer" 24 none 0 (by decide)).1,
   (admin_immunity dbEmpty cfgW 1 "@root" 2 "@issuer" 24 none 0 (by decide)).2⟩

/-- Claim C9: the weekday histogram has exactly 7 buckets labelled 0..6 in
Monday-first order, obtained by remapping the SQLite-native Sunday-first
numbering, and an in-window event on a Wednesday (native weekday 3) is
counted in bucket index 2. -/
theorem weekday_remap (db : DB) (start_date end_date : Int) (f : Forward)
    (hmem : f ∈ db.forwards) (hs : start_date ≤ f.timestamp)
    (he : f.timestamp < end_date) (hwed : sqliteWeekday f.timestamp = 3) :
    (get_stats_by_weekdays db start_date end_date).length = 7
    ∧ (get_stats_by_weekdays db start_date end_date).map Prod.fst =
        [0, 1, 2, 3, 4, 5, 6]
    ∧ remapWeekday (sqliteWeekday f.timestamp) = 2
    ∧ ((2 : Int), weekdayBucketCount db start_date end_date 2) ∈
        get_stats_by_weekdays db start_date end_date
    ∧ 0 < weekdayBucketCount db start_date end_date 2 := by
  refine ⟨by simp only [get_stats_by_weekdays, List.length_map, List.length_range],
    ?_, by rw [hwed]; decide, ?_, ?_⟩
  · simp only [get_stats_by_weekdays, List.map_map]
    rfl
  · refine List.mem_map.mpr ⟨2, ?_, rfl⟩
    decide
  · have hrw : remapWeekday (sqliteWeekday f.timestamp) = 2 := by rw [hwed]; decide
    have hf : f ∈ db.forwards.filter (fun g =>
        decide (start_date ≤ g.timestamp) && decide (g.timestamp < end_date) &&
        decide (remapWeekday (sqliteWeekday g.timestamp) = 2)) :=
      List.mem_filter.mpr ⟨hmem, by simp [hs, he, hrw]⟩
    exact List.length_pos_of_mem hf

/-- Witness for C9: the forward on Wednesday 1970-01-07 lands in bucket 2
of the weekday histogram over a window containing it. -/
theorem weekday_remap_witness :
    (fwWed ∈ dbWed.forwards ∧ (0 : Int) ≤ fwWed.timestamp ∧
     fwWed.timestamp < 1000000 ∧ sqliteWeekday fwWed.timestamp = 3) ∧
    0 < weekdayBucketCount dbWed 0 1000000 2 :=
  ⟨⟨by decide, by decide, by decide, by decide⟩,
   (weekday_remap dbWed 0 1000000 fwWed (by decide) (by decide) (by decide)
     (by decide)).2.2.2.2⟩

end TeaBot
